import Mathlib

/-!
Shallow embedding of the order-entry pipeline of the repository
(order resolution, requirement planning, question generation and pricing).

The embedded functions follow the TypeScript source:
* `buildLineItem` and its helpers follow `lib/ai-assistant.ts`
  (the route-compatible snapshot, src/unnamed/part_001 lines 350-462);
* `getRequiredFields`, `autoSelectSingleOptions`, `getMaxDecorationColors`,
  `getUniqueDecorationMethods` and the merge loop follow
  `src/app/api/process-order/route.ts`;
* `generateClarifyingQuestions` follows the deterministic generator in
  `src/lib/ai-assistant.ts` (lines 558-623);
* `findSynonymMatch` and the `synonyms` table follow `src/lib/examples.ts`;
* `mergeOracleResponse` follows the oracle-merge step of `parseUserResponse`
  in src/unnamed/part_001 (lines 234-265).

JavaScript numbers are modelled as `Nat` (quantities, counts) and `ℚ`
(prices); JavaScript truthiness on optional values is made explicit through
the `js*` helpers below.
-/

namespace OrderEntry

/-- JavaScript falsiness of an optional number field: `undefined`/`null` and
`0` are falsy. -/
def jsNatFalsy : Option Nat → Bool
  | none => true
  | some n => n == 0

/-- JavaScript falsiness of an optional string field: `undefined`/`null` and
the empty string are falsy. -/
def jsStrFalsy : Option String → Bool
  | none => true
  | some s => s == ""

/-- JavaScript `a || b` on optional numbers. -/
def jsOrNat (a b : Option Nat) : Option Nat :=
  if jsNatFalsy a then b else a

/-- JavaScript `a || b` on optional strings. -/
def jsOrStr (a b : Option String) : Option String :=
  if jsStrFalsy a then b else a

/-- `String.toLowerCase()` (ASCII case folding, which is what the catalog
data exercises). -/
def strLower (s : String) : String :=
  ⟨s.data.map Char.toLower⟩

/-- `String.trim()`. -/
def jsTrim (s : String) : String :=
  ⟨((s.data.dropWhile Char.isWhitespace).reverse.dropWhile Char.isWhitespace).reverse⟩

/-- Whether `sub` occurs as a contiguous run inside `l`. -/
def charsContain (sub : List Char) : List Char → Bool
  | [] => sub.isEmpty
  | a :: t => sub.isPrefixOf (a :: t) || charsContain sub t

/-- `s.includes(sub)` — substring containment. -/
def jsIncludes (s sub : String) : Bool :=
  charsContain sub.data s.data

/-- `[...new Set(xs)]` — deduplication keeping the first occurrence. -/
def jsSetDedup (seen : List String) : List String → List String
  | [] => []
  | a :: l => if a ∈ seen then jsSetDedup seen l else a :: jsSetDedup (a :: seen) l

/-- `Map.set` on an association list: overwrite the value in place when the
key exists, append otherwise (JS `Map` keeps first-insertion key order). -/
def mapSet (m : List (String × String)) (k v : String) : List (String × String) :=
  if m.any (fun p => p.1 == k) then
    m.map (fun p => if p.1 == k then (k, v) else p)
  else m ++ [(k, v)]

/-! ### Catalog data model (`src/types/index.ts`) -/

/-- One entry of the price-break table of a part. -/
structure PartPrice where
  minQuantity : Nat
  price : ℚ
  priceUom : String := ""
  deriving DecidableEq, Repr

/-- A product part (color/variant). -/
structure Part where
  partId : String
  partDescription : String
  partGroup : Option Nat := none
  priceBreaks : List PartPrice
  deriving DecidableEq, Repr

/-- One entry of a charge price matrix. -/
structure ChargePrice where
  xMinQty : Nat := 0
  xUom : String := ""
  yMinQty : Int := 0
  yUom : String := ""
  price : ℚ
  repeatPrice : ℚ := 0
  deriving DecidableEq, Repr

/-- A decoration charge (`chargeType` is the string `"Setup"` or `"Run"`). -/
structure Charge where
  chargeId : String := ""
  chargeName : String
  chargeDescription : String := ""
  chargeType : String
  priceArray : List ChargePrice
  deriving DecidableEq, Repr

/-- A decoration method offered at a location. -/
structure Decoration where
  decorationId : String := ""
  decorationName : String
  decorationGeometry : String := ""
  decorationUnitsIncluded : Int := 0
  decorationUnitsMax : Nat := 0
  defaultDecoration : Bool := false
  charges : List Charge
  deriving DecidableEq, Repr

/-- A decoration location. -/
structure Location where
  locationId : String := ""
  locationName : String
  decorations : List Decoration
  defaultLocation : Bool := false
  deriving DecidableEq, Repr

/-- The catalog snapshot for one product. -/
structure PricingConfiguration where
  productId : String
  currency : String := "USD"
  parts : List Part
  locations : List Location
  deriving DecidableEq, Repr

/-! ### Conversation state and line items -/

/-- The field bag used for both `parsedRequest` and `selectedOptions`
(each field unset, or a raw/resolved value). -/
structure FieldValues where
  quantity : Option Nat := none
  color : Option String := none
  partId : Option String := none
  decorationMethod : Option String := none
  decorationLocation : Option String := none
  decorationColors : Option Nat := none
  deriving DecidableEq, Repr

/-- The conversation state threaded through the dialogue (the members
`buildLineItem` reads). -/
structure ConversationState where
  parsedRequest : FieldValues := {}
  selectedOptions : FieldValues := {}
  pricingData : Option PricingConfiguration := none
  deriving DecidableEq, Repr

/-- One itemised charge line of the output. -/
structure LineItemCharge where
  name : String
  description : String
  quantity : Nat
  unitPrice : ℚ
  extendedPrice : ℚ
  deriving DecidableEq, Repr

/-- The terminal priced line item. -/
structure OrderLineItem where
  productId : String
  productName : String
  partId : String
  description : String
  quantity : Nat
  unitPrice : ℚ
  extendedPrice : ℚ
  decorationMethod : Option String
  decorationLocation : Option String
  decorationColors : Nat
  charges : List LineItemCharge
  totalWithCharges : ℚ
  deriving DecidableEq, Repr

/-! ### Pricing engine (`buildLineItem`, src/unnamed/part_001 lines 350-462) -/

/-- The unit-price scan: walk the price breaks in order and keep the price of
every break whose `minQuantity` the quantity reaches, starting from `0`. -/
def unitPriceFor (quantity : Nat) (priceBreaks : List PartPrice) : ℚ :=
  priceBreaks.foldl (fun acc pb => if quantity ≥ pb.minQuantity then pb.price else acc) 0

/-- The setup-charge loop body: a charge with a non-empty price array yields a
one-time line priced at the first price entry. -/
def setupChargeLine (ch : Charge) : Option LineItemCharge :=
  match ch.priceArray.head? with
  | none => none
  | some cp =>
    some { name := ch.chargeName
           description := ch.chargeDescription ++ " - Setup"
           quantity := 1
           unitPrice := cp.price
           extendedPrice := cp.price }

/-- All charge lines produced from the `Setup`-type charges of the decoration. -/
def setupChargeLines (d : Decoration) : List LineItemCharge :=
  (d.charges.filter (fun c => c.chargeType == "Setup")).filterMap setupChargeLine

/-- The run-charge loop body, for a decoration whose `unitsIncluded` is
`included`: color-keyed entries bill the colors above `unitsIncluded`,
other entries bill a flat per-piece run charge. -/
def runChargeLine (quantity decorationColors : Nat) (included : Int) (ch : Charge) :
    Option LineItemCharge :=
  match ch.priceArray.head? with
  | none => none
  | some cp =>
    if cp.yUom == "Colors" then
      if (decorationColors : Int) > cp.yMinQty then
        let extraColors : Int := (decorationColors : Int) - included
        if extraColors > 0 then
          some { name := ch.chargeName
                 description := toString extraColors ++ " extra color(s)"
                 quantity := quantity
                 unitPrice := cp.price
                 extendedPrice := cp.price * (quantity : ℚ) * (extraColors : ℚ) }
        else none
      else none
    else
      some { name := ch.chargeName
             description := ch.chargeDescription
             quantity := quantity
             unitPrice := cp.price
             extendedPrice := cp.price * (quantity : ℚ) }

/-- All charge lines produced from the `Run`-type charges of the decoration. -/
def runChargeLines (quantity decorationColors : Nat) (d : Decoration) : List LineItemCharge :=
  (d.charges.filter (fun c => c.chargeType == "Run")).filterMap
    (runChargeLine quantity decorationColors d.decorationUnitsIncluded)

/-- All charge lines of a decoration: setup lines first, then run lines,
matching the push order of the source. -/
def decorationChargeLines (quantity decorationColors : Nat) (d : Decoration) :
    List LineItemCharge :=
  setupChargeLines d ++ runChargeLines quantity decorationColors d

/-- `charges.reduce((sum, c) => sum + c.extendedPrice, 0)`. -/
def chargesTotal (charges : List LineItemCharge) : ℚ :=
  charges.foldl (fun sum c => sum + c.extendedPrice) 0

/-- Locate the chosen location and decoration and collect the charge lines
of that decoration; an unmatched location or decoration contributes no
charges. -/
def resolveDecorationCharges (pricingData : PricingConfiguration) (dm dl : String)
    (quantity decorationColors : Nat) : List LineItemCharge :=
  match pricingData.locations.find? (fun l =>
      strLower l.locationName == strLower dl || l.locationId == dl) with
  | none => []
  | some location =>
    match location.decorations.find? (fun d =>
        jsIncludes (strLower d.decorationName) (strLower dm)) with
    | none => []
    | some decoration => decorationChargeLines quantity decorationColors decoration

/-- Assemble the output record; `extendedPrice` and `totalWithCharges` are
computed here exactly as in the source. -/
def mkOrderLineItem (productId productName partId description : String)
    (quantity : Nat) (unitPrice : ℚ) (dm dl : Option String)
    (decorationColors : Nat) (charges : List LineItemCharge) : OrderLineItem :=
  { productId := productId
    productName := productName
    partId := partId
    description := description
    quantity := quantity
    unitPrice := unitPrice
    extendedPrice := unitPrice * (quantity : ℚ)
    decorationMethod := dm
    decorationLocation := dl
    decorationColors := decorationColors
    charges := charges
    totalWithCharges := unitPrice * (quantity : ℚ) + chargesTotal charges }

/-- The pricing engine (`buildLineItem` of src/unnamed/part_001). -/
def buildLineItem (state : ConversationState) (productName : String) :
    Option OrderLineItem :=
  match state.pricingData with
  | none => none
  | some pricingData =>
    let quantityO := jsOrNat state.selectedOptions.quantity state.parsedRequest.quantity
    let partIdO := jsOrStr state.selectedOptions.partId state.parsedRequest.partId
    let dmO := jsOrStr state.selectedOptions.decorationMethod state.parsedRequest.decorationMethod
    let dlO := jsOrStr state.selectedOptions.decorationLocation state.parsedRequest.decorationLocation
    let decorationColors : Nat :=
      match jsOrNat state.selectedOptions.decorationColors state.parsedRequest.decorationColors with
      | none => 1
      | some n => if n == 0 then 1 else n
    if jsNatFalsy quantityO || jsStrFalsy partIdO then none
    else
      match pricingData.parts.find? (fun p => p.partId == partIdO.getD ("")) with
      | none => none
      | some part =>
        some (mkOrderLineItem pricingData.productId productName (partIdO.getD (""))
          part.partDescription (quantityO.getD 0)
          (unitPriceFor (quantityO.getD 0) part.priceBreaks) dmO dlO decorationColors
          (if !jsStrFalsy dmO && !jsStrFalsy dlO then
            resolveDecorationCharges pricingData (dmO.getD ("")) (dlO.getD (""))
              (quantityO.getD 0) decorationColors
          else []))

/-! ### Requirement planner (`src/app/api/process-order/route.ts`) -/

/-- Which fields are still required, mirroring `getRequiredFields`: `0` is a
valid value for `decorationColors`, so only `undefined`/`null` count as
missing there, while the other four use plain truthiness. -/
structure RequiredFields where
  quantity : Bool
  color : Bool
  decorationMethod : Bool
  decorationLocation : Bool
  decorationColors : Bool
  deriving DecidableEq, Repr

/-- `getRequiredFields` of route.ts. -/
def getRequiredFields (selectedOptions : FieldValues) : RequiredFields :=
  { quantity := jsNatFalsy selectedOptions.quantity
    color := jsStrFalsy selectedOptions.partId
    decorationMethod := jsStrFalsy selectedOptions.decorationMethod
    decorationLocation := jsStrFalsy selectedOptions.decorationLocation
    decorationColors := selectedOptions.decorationColors.isNone }

/-- `getUniqueDecorationMethods` of route.ts: one `(name, id)` entry per
distinct decoration name, in first-occurrence order, keeping the last id. -/
def getUniqueDecorationMethods (pricingData : PricingConfiguration) :
    List (String × String) :=
  pricingData.locations.foldl
    (fun m location => location.decorations.foldl
      (fun m' d => mapSet m' d.decorationName d.decorationId) m) []

/-- `getMaxDecorationColors` of route.ts: the largest `decorationUnitsMax`
across all decorations, starting from `1`. -/
def getMaxDecorationColors (pricingData : PricingConfiguration) : Nat :=
  pricingData.locations.foldl
    (fun acc location => location.decorations.foldl
      (fun a d => if d.decorationUnitsMax > a then d.decorationUnitsMax else a) acc) 1

/-- First mutation of `autoSelectSingleOptions`: auto-select the color when
exactly one described part exists. -/
def autoSelectPart (sel : FieldValues) (pricingData : PricingConfiguration) : FieldValues :=
  let mainParts := pricingData.parts.filter
    (fun p => p.partDescription ≠ "" && jsTrim p.partDescription ≠ "")
  if jsStrFalsy sel.partId && mainParts.length == 1 then
    match mainParts.head? with
    | some p => { sel with partId := some p.partId }
    | none => sel
  else sel

/-- Second mutation: auto-select the decoration method when only one exists. -/
def autoSelectMethod (sel : FieldValues) (pricingData : PricingConfiguration) : FieldValues :=
  let methods := getUniqueDecorationMethods pricingData
  if jsStrFalsy sel.decorationMethod && methods.length == 1 then
    match methods.head? with
    | some m => { sel with decorationMethod := some m.1 }
    | none => sel
  else sel

/-- Third mutation: auto-select the location when only one exists. -/
def autoSelectLocation (sel : FieldValues) (pricingData : PricingConfiguration) : FieldValues :=
  if jsStrFalsy sel.decorationLocation && pricingData.locations.length == 1 then
    match pricingData.locations.head? with
    | some l => { sel with decorationLocation := some l.locationName }
    | none => sel
  else sel

/-- Fourth mutation: auto-select one imprint color when the catalog-wide
maximum is `1`. -/
def autoSelectColors (sel : FieldValues) (pricingData : PricingConfiguration) : FieldValues :=
  if jsNatFalsy sel.decorationColors && getMaxDecorationColors pricingData == 1 then
    { sel with decorationColors := some 1 }
  else sel

/-- `autoSelectSingleOptions` of route.ts: the four mutations above applied
in source order. -/
def autoSelectSingleOptions (sel : FieldValues) (pricingData : PricingConfiguration) :
    FieldValues :=
  autoSelectColors
    (autoSelectLocation (autoSelectMethod (autoSelectPart sel pricingData) pricingData)
      pricingData) pricingData

/-! ### Per-turn field merge (route.ts `POST`, lines 222-227) -/

/-- One step of the merge loop: a `null`/`undefined` extracted value is
skipped, a present value overwrites the state at its key. -/
def applyEntry {α : Type} (sel : String → Option α) (e : String × Option α) :
    String → Option α :=
  match e.2 with
  | some w => fun q => if q == e.1 then some w else sel q
  | none => sel

/-- The merge loop over `Object.entries(extracted)`. -/
def mergeExtracted {α : Type} (sel : String → Option α)
    (extracted : List (String × Option α)) : String → Option α :=
  extracted.foldl applyEntry sel

/-! ### Question generator (`src/lib/ai-assistant.ts`, lines 558-623) -/

/-- A product part as seen by the question generator (part ids and colors). -/
structure ProductPart where
  partId : String := ""
  colors : List String := []
  primaryColor : String := ""
  description : String := ""
  deriving DecidableEq, Repr

/-- The product record the question generator consumes. -/
structure Product where
  productId : String := ""
  productName : String := ""
  parts : List ProductPart := []
  deriving DecidableEq, Repr

/-- A decoration method reference inside the pricing payload. -/
structure DecorationMethodRef where
  decorationName : String
  deriving DecidableEq, Repr

/-- A decoration location inside the pricing payload. -/
structure PricingLocation where
  locationName : String := ""
  decorationMethods : List DecorationMethodRef := []
  deriving DecidableEq, Repr

/-- The pricing payload the question generator consumes. -/
structure ProductPricing where
  decorationLocations : List PricingLocation := []
  deriving DecidableEq, Repr

/-- A clarifying question with its typed answer contract. -/
structure ClarifyingQuestion where
  field : String
  question : String
  type : String
  options : Option (List String)
  deriving DecidableEq, Repr

/-- The deduplicated color list `[...new Set(product.parts.flatMap(p => p.colors))]`. -/
def availableColorsOf (product : Product) : List String :=
  jsSetDedup [] (product.parts.foldr (fun p acc => p.colors ++ acc) [])

/-- The deduplicated decoration-method list across all locations. -/
def availableMethodsOf (pricing : ProductPricing) : List String :=
  jsSetDedup [] (pricing.decorationLocations.foldr
    (fun l acc => l.decorationMethods.map DecorationMethodRef.decorationName ++ acc) [])

/-- The color question pushed when color is unknown and several are offered. -/
def colorQuestion (availableColors : List String) : ClarifyingQuestion :=
  { field := "color"
    question := "What color? Available: " ++ String.intercalate (", ") (availableColors.take 8)
      ++ (if availableColors.length > 8 then "..." else "")
    type := "select"
    options := some (availableColors.take 10) }

/-- The decoration-method question pushed when the method is unknown. -/
def methodQuestion (availableMethods : List String) : ClarifyingQuestion :=
  { field := "decorationMethod"
    question := "What decoration method? Options: " ++ String.intercalate (", ") availableMethods
    type := "select"
    options := some availableMethods }

/-- The quantity question. -/
def quantityQuestion : ClarifyingQuestion :=
  { field := "quantity"
    question := "How many units do you need?"
    type := "number"
    options := none }

/-- The imprint-color-count question. -/
def decorationColorsQuestion : ClarifyingQuestion :=
  { field := "decorationColors"
    question := "How many colors in your imprint?"
    type := "number"
    options := none }

/-- The deterministic `generateClarifyingQuestions`: build the candidate list
in priority order (quantity, color, method, imprint colors) and return
`questions.slice(0, 1)`. -/
def generateClarifyingQuestions (parsedRequest selectedOptions : FieldValues)
    (product : Product) (pricing : ProductPricing) : List ClarifyingQuestion :=
  let knownQuantity := jsOrNat parsedRequest.quantity selectedOptions.quantity
  let knownColor := jsOrStr parsedRequest.color selectedOptions.color
  let knownMethod := jsOrStr parsedRequest.decorationMethod selectedOptions.decorationMethod
  let knownColors := jsOrNat parsedRequest.decorationColors selectedOptions.decorationColors
  let availableColors := availableColorsOf product
  let availableMethods := availableMethodsOf pricing
  let q1 := if jsNatFalsy knownQuantity then [quantityQuestion] else []
  let q2 := if jsStrFalsy knownColor && availableColors.length > 1 then
      [colorQuestion availableColors] else []
  let q3 := if jsStrFalsy knownMethod && availableMethods.length > 0 then
      [methodQuestion availableMethods] else []
  let q4 := if !jsStrFalsy knownMethod && jsNatFalsy knownColors then
      [decorationColorsQuestion] else []
  (q1 ++ q2 ++ q3 ++ q4).take 1

/-! ### Deterministic option matcher (`src/lib/examples.ts`) -/

/-- The synonym table of examples.ts. -/
def synonyms : List (String × List String) :=
  [("screen print", ["silk screen", "silkscreen", "screen printing", "screened"]),
   ("laser engrave", ["laser engraving", "lasered", "engraved", "etched"]),
   ("pad print", ["pad printing", "pad printed", "tampo"]),
   ("embroidery", ["embroidered", "embroider"]),
   ("front", ["front side", "face", "main"]),
   ("back", ["back side", "rear", "reverse"]),
   ("wrap", ["wraparound", "wrap around", "full wrap", "360"]),
   ("full color", ["4 color", "four color", "cmyk", "process"]),
   ("one color", ["1 color", "single color", "mono"])]

/-- `findSynonymMatch` of examples.ts: first an exact / substring pass over
the options, then a pass through the synonym table. -/
def findSynonymMatch (input : String) (availableOptions : List String) : Option String :=
  let normalized := jsTrim (strLower input)
  match availableOptions.find? (fun opt =>
      strLower opt == normalized ||
      jsIncludes (strLower opt) normalized ||
      jsIncludes normalized (strLower opt)) with
  | some directMatch => some directMatch
  | none =>
    synonyms.findSome? (fun entry =>
      if entry.2.any (fun v => jsIncludes normalized (strLower v)) then
        availableOptions.find? (fun opt => jsIncludes (strLower opt) (strLower entry.1))
      else none)

/-! ### Oracle-merge step of `parseUserResponse` (src/unnamed/part_001, 234-265) -/

/-- A color option `{ partId, name }` offered to the resolver. -/
structure ColorOption where
  partId : String
  name : String
  deriving DecidableEq, Repr

/-- The field bag returned by the extraction passes of `parseUserResponse`. -/
structure OracleFields where
  color : Option String := none
  partId : Option String := none
  decorationMethod : Option String := none
  decorationLocation : Option String := none
  decorationColors : Option Nat := none
  deriving DecidableEq, Repr

/-- The color-option names offered to the matcher
(`colors.map(c => c.name).filter(n => n)`). -/
def colorOptionNames (colors : List ColorOption) : List String :=
  (colors.map ColorOption.name).filter (fun n => n ≠ "")

/-- Oracle-merge step for `color`/`partId`: the oracle color is taken only
when the deterministic matcher maps it onto a catalog option. -/
def mergeOracleColor (r aiParsed : OracleFields) (colors : List ColorOption) : OracleFields :=
  if !jsStrFalsy aiParsed.color && jsStrFalsy r.color then
    match findSynonymMatch (aiParsed.color.getD ("")) (colorOptionNames colors) with
    | some matchedColor =>
      let withColor := { r with color := some matchedColor }
      match colors.find? (fun c => c.name == matchedColor) with
      | some part => { withColor with partId := some part.partId }
      | none => withColor
    | none => r
  else r

/-- Oracle-merge step for a raw `partId`. -/
def mergeOraclePartId (r aiParsed : OracleFields) : OracleFields :=
  if !jsStrFalsy aiParsed.partId && jsStrFalsy r.partId then
    { r with partId := aiParsed.partId }
  else r

/-- Oracle-merge step for the decoration method: `matchedMethod ||
aiParsed.decorationMethod` — an unmatched oracle value is kept verbatim. -/
def mergeOracleMethod (r aiParsed : OracleFields) (methodOptions : List String) : OracleFields :=
  let matchedMethod := findSynonymMatch (aiParsed.decorationMethod.getD ("")) methodOptions
  if !jsStrFalsy aiParsed.decorationMethod && jsStrFalsy r.decorationMethod then
    { r with decorationMethod := jsOrStr matchedMethod aiParsed.decorationMethod }
  else r

/-- Oracle-merge step for the decoration location, same fallback shape. -/
def mergeOracleLocation (r aiParsed : OracleFields) (locationOptions : List String) :
    OracleFields :=
  let matchedLocation := findSynonymMatch (aiParsed.decorationLocation.getD ("")) locationOptions
  if !jsStrFalsy aiParsed.decorationLocation && jsStrFalsy r.decorationLocation then
    { r with decorationLocation := jsOrStr matchedLocation aiParsed.decorationLocation }
  else r

/-- Oracle-merge step for the imprint-color count. -/
def mergeOracleColorCount (r aiParsed : OracleFields) : OracleFields :=
  if !jsNatFalsy aiParsed.decorationColors && jsNatFalsy r.decorationColors then
    { r with decorationColors := aiParsed.decorationColors }
  else r

/-- The merge of the parsed oracle fields into the deterministic
`directMatch` result (`parseUserResponse` lines 234-265), as the source-order
composition of the five steps above. -/
def mergeOracleResponse (directMatch aiParsed : OracleFields)
    (colors : List ColorOption) (methodOptions locationOptions : List String) :
    OracleFields :=
  mergeOracleColorCount
    (mergeOracleLocation
      (mergeOracleMethod
        (mergeOraclePartId (mergeOracleColor directMatch aiParsed colors) aiParsed)
        aiParsed methodOptions)
      aiParsed locationOptions)
    aiParsed

/-! ### Concrete catalog fixtures used to settle the claims -/

/-- A part whose lowest price break starts at quantity 100. -/
def partHighBreak : Part :=
  { partId := "P1"
    partDescription := "BLACK"
    priceBreaks := [{ minQuantity := 100, price := 5 }] }

/-- A state requesting 50 units of a part whose lowest break is 100. -/
def stateBelowBreak : ConversationState :=
  { selectedOptions := { quantity := some 50, partId := some ("P1") }
    pricingData := some { productId := "55900", parts := [partHighBreak], locations := [] } }

/-- The color-keyed run-charge price entry used in the fixtures. -/
def colorRunPrice : ChargePrice := { yMinQty := 1, yUom := "Colors", price := 1 }

/-- A color-keyed run charge: one extra-color price entry. -/
def colorRunCharge : Charge :=
  { chargeName := "Extra Color Run Charge"
    chargeType := "Run"
    priceArray := [colorRunPrice] }

/-- A flat setup charge whose price matrix has two entries. -/
def setupChargeEx : Charge :=
  { chargeName := "Screen Setup"
    chargeDescription := "Screen setup charge"
    chargeType := "Setup"
    priceArray := [{ price := 50 }, { price := 30 }] }

/-- A screen-print decoration including one color, with the two charges. -/
def screenPrintDeco : Decoration :=
  { decorationName := "Screen Print"
    decorationUnitsIncluded := 1
    decorationUnitsMax := 4
    charges := [setupChargeEx, colorRunCharge] }

/-- A fully resolved state: 10 units, 3 imprint colors, screen print on the
wrap location (the decoration bills colors above the included 1). -/
def stateThreeColors : ConversationState :=
  { selectedOptions :=
      { quantity := some 10
        partId := some ("P1")
        decorationMethod := some ("screen print")
        decorationLocation := some ("WRAP")
        decorationColors := some 3 }
    pricingData := some
      { productId := "55900"
        parts := [{ partId := "P1", partDescription := "BLACK", priceBreaks := [{ minQuantity := 1, price := 5 }] }]
        locations := [{ locationName := "WRAP", decorations := [screenPrintDeco] }] } }

/-- The extra-color charge line `buildLineItem` produces for
`stateThreeColors`: 2 extra colors at $1 over 10 pieces. -/
def extraColorLine : LineItemCharge :=
  { name := "Extra Color Run Charge"
    description := "2 extra color(s)"
    quantity := 10
    unitPrice := 1
    extendedPrice := 20 }

/-- A state whose `decorationColors` was explicitly answered with 0. -/
def stateZeroColors : ConversationState :=
  { selectedOptions := { quantity := some 100, partId := some ("P1"), decorationColors := some 0 }
    pricingData := some
      { productId := "55900"
        parts := [{ partId := "P1", partDescription := "BLACK", priceBreaks := [{ minQuantity := 1, price := 2 }] }]
        locations := [] } }

/-! ### C1 -/

/-- C1: the claim says that for a quantity strictly below the lowest
price-break `minQuantity` of the part, the pricing engine reports a `BelowMinimumQuantity`
error and never returns a $0-unit-price line item. The code has no such
error path: at quantity 50 against a part whose lowest break is 100,
`buildLineItem` silently returns a line item whose unit price is 0 — the
exact behaviour the error taxonomy of the spec rules out. -/
theorem belowMinimumQuantityIsSilentZero :
    (buildLineItem stateBelowBreak ("Tumbler")).isSome = true ∧
    (buildLineItem stateBelowBreak ("Tumbler")).map OrderLineItem.unitPrice = some 0 ∧
    (buildLineItem stateBelowBreak ("Tumbler")).map OrderLineItem.totalWithCharges = some 0 := by
  refine ⟨rfl, rfl, ?_⟩
  simp +decide [buildLineItem, stateBelowBreak, partHighBreak, jsOrNat, jsOrStr, jsNatFalsy,
    jsStrFalsy, mkOrderLineItem, unitPriceFor, chargesTotal, resolveDecorationCharges,
    List.foldl]

/-! ### C5 -/

/-- C5: the requirement planner does treat an explicit `decorationColors = 0`
as answered (`getRequiredFields` only counts `undefined`/`null` as missing),
but the pricing engine, via `selectedOptions.decorationColors ||
parsedRequest.decorationColors || 1` treats the explicit 0 as falsy and
prices the order with the default of 1 imprint color, contradicting the
tri-state behaviour the claim states for the whole pipeline. -/
theorem zeroDecorationColorsReplacedByDefault :
    (getRequiredFields stateZeroColors.selectedOptions).decorationColors = false ∧
    (buildLineItem stateZeroColors ("Tumbler")).map OrderLineItem.decorationColors = some 1 := by
  refine ⟨rfl, rfl⟩

/-! ### C2 -/

/-- The setup charge line `buildLineItem` produces for `stateThreeColors`. -/
def setupLine : LineItemCharge :=
  { name := "Screen Setup"
    description := "Screen setup charge - Setup"
    quantity := 1
    unitPrice := 50
    extendedPrice := 50 }

/-- C2 counterexample: on `stateThreeColors` (10 pieces, 3 imprint colors,
1 included) the engine emits an extra-color charge line with `quantity = 10`,
`unitPrice = 1` but `extendedPrice = 20 = price * quantity * extraColors`,
so that line violates the claimed per-line identity
`extendedPrice == quantity * unitPrice`. -/
theorem extraColorLineBreaksPerLineIdentity :
    (buildLineItem stateThreeColors ("Tumbler")).map OrderLineItem.charges =
      some [setupLine, extraColorLine] ∧
    extraColorLine.extendedPrice ≠ (extraColorLine.quantity : ℚ) * extraColorLine.unitPrice := by
  constructor
  · simp +decide [buildLineItem, stateThreeColors, screenPrintDeco, setupChargeEx,
      colorRunCharge, colorRunPrice, jsOrNat, jsOrStr, jsNatFalsy, jsStrFalsy,
      mkOrderLineItem, unitPriceFor, resolveDecorationCharges, decorationChargeLines,
      setupChargeLines, runChargeLines, setupChargeLine, runChargeLine, strLower,
      jsIncludes, charsContain, List.find?, List.foldl, setupLine, extraColorLine]
    all_goals norm_num
  · norm_num [extraColorLine]

/-- C2 amended: the total invariant `totalWithCharges == extendedPrice +
sum(charges.extendedPrice)` holds for every produced line item, and the
per-line identity `extendedPrice == quantity * unitPrice` holds for every
setup line and for every non-color-keyed run line, while a color-keyed
extra-color line instead satisfies
`extendedPrice == unitPrice * quantity * (decorationColors - unitsIncluded)`. -/
theorem lineItemTotalsAndChargeLines :
    (∀ (st : ConversationState) (pn : String) (item : OrderLineItem),
      buildLineItem st pn = some item →
      item.totalWithCharges = item.extendedPrice + chargesTotal item.charges) ∧
    (∀ (d : Decoration), ∀ c ∈ setupChargeLines d,
      c.extendedPrice = (c.quantity : ℚ) * c.unitPrice) ∧
    (∀ (qty colors : Nat) (included : Int) (ch : Charge) (c : LineItemCharge),
      runChargeLine qty colors included ch = some c →
      c.extendedPrice = (c.quantity : ℚ) * c.unitPrice ∨
      c.extendedPrice = c.unitPrice * (qty : ℚ) * ((((colors : Int) - included) : Int) : ℚ)) := by
  refine ⟨?_, ?_, ?_⟩
  · intro st pn item h
    simp only [buildLineItem] at h
    split at h
    · exact Option.noConfusion h
    · split at h
      · exact Option.noConfusion h
      · split at h
        · exact Option.noConfusion h
        · injection h with h
          subst h
          rfl
  · intro d c hc
    simp only [setupChargeLines, List.mem_filterMap] at hc
    obtain ⟨ch, _, hline⟩ := hc
    simp only [setupChargeLine] at hline
    split at hline
    · exact Option.noConfusion hline
    · injection hline with h
      subst h
      simp
  · intro qty colors included ch c h
    simp only [runChargeLine] at h
    split at h
    · exact Option.noConfusion h
    · split at h
      · split at h
        · split at h
          · injection h with h
            subst h
            exact Or.inr rfl
          · exact Option.noConfusion h
        · exact Option.noConfusion h
      · injection h with h
        subst h
        exact Or.inl (mul_comm _ _)

/-- The full line item `buildLineItem` produces for `stateThreeColors`. -/
def itemThreeColors : OrderLineItem :=
  { productId := "55900"
    productName := "Tumbler"
    partId := "P1"
    description := "BLACK"
    quantity := 10
    unitPrice := 5
    extendedPrice := 50
    decorationMethod := some ("screen print")
    decorationLocation := some ("WRAP")
    decorationColors := 3
    charges := [setupLine, extraColorLine]
    totalWithCharges := 120 }

/-- C2 amended, witnessed on `stateThreeColors`. -/
theorem lineItemTotalsWitness :
    itemThreeColors.totalWithCharges =
      itemThreeColors.extendedPrice + chargesTotal itemThreeColors.charges := by
  have h : buildLineItem stateThreeColors ("Tumbler") = some itemThreeColors := by
    simp +decide [buildLineItem, stateThreeColors, screenPrintDeco, setupChargeEx,
      colorRunCharge, colorRunPrice, jsOrNat, jsOrStr, jsNatFalsy, jsStrFalsy,
      mkOrderLineItem, unitPriceFor, resolveDecorationCharges, decorationChargeLines,
      setupChargeLines, runChargeLines, setupChargeLine, runChargeLine, strLower,
      jsIncludes, charsContain, List.find?, List.foldl, setupLine, extraColorLine,
      itemThreeColors, chargesTotal]
    all_goals norm_num
  exact lineItemTotalsAndChargeLines.1 stateThreeColors ("Tumbler") itemThreeColors h

/-! ### C3 -/

/-- C3: for a `Run` charge whose first price entry keys on color count
(`yUom = "Colors"`), a charge line is produced only when `decorationColors`
exceeds the `unitsIncluded` of the decoration; the produced line bills the order
quantity at the matrix price with extended price
`matrixPrice * quantity * (decorationColors - unitsIncluded)`, and no line is
produced whenever `decorationColors <= unitsIncluded`, for every quantity. -/
theorem colorKeyedRunChargeBillsExtraColors
    (qty colors : Nat) (d : Decoration) (ch : Charge) (cp : ChargePrice)
    (hhead : ch.priceArray.head? = some cp) (hy : cp.yUom = "Colors") :
    (∀ c, runChargeLine qty colors d.decorationUnitsIncluded ch = some c →
      (colors : Int) > d.decorationUnitsIncluded ∧
      c.quantity = qty ∧ c.unitPrice = cp.price ∧
      c.extendedPrice =
        cp.price * (qty : ℚ) * ((((colors : Int) - d.decorationUnitsIncluded) : Int) : ℚ) ∧
      c.description = toString ((colors : Int) - d.decorationUnitsIncluded)
        ++ " extra color(s)") ∧
    ((colors : Int) ≤ d.decorationUnitsIncluded →
      runChargeLine qty colors d.decorationUnitsIncluded ch = none) := by
  constructor
  · intro c h
    simp only [runChargeLine, hhead, hy, beq_self_eq_true, ite_true] at h
    split at h
    · split at h
      · injection h with h
        subst h
        refine ⟨by omega, rfl, rfl, rfl, rfl⟩
      · exact Option.noConfusion h
    · exact Option.noConfusion h
  · intro hle
    simp only [runChargeLine, hhead, hy, beq_self_eq_true, ite_true]
    split
    · split
      · exfalso
        omega
      · rfl
    · rfl

/-- The extra-color line at quantity 1000, 3 colors, 1 included. -/
def runLineThousand : LineItemCharge :=
  { name := "Extra Color Run Charge"
    description := "2 extra color(s)"
    quantity := 1000
    unitPrice := 1
    extendedPrice := 2000 }

/-- C3, witnessed at quantity 1000 with 3 colors against `screenPrintDeco`. -/
theorem colorKeyedRunChargeWitness :
    ((3 : Nat) : Int) > screenPrintDeco.decorationUnitsIncluded ∧
    runLineThousand.quantity = 1000 ∧
    runLineThousand.unitPrice = colorRunPrice.price ∧
    runLineThousand.extendedPrice = colorRunPrice.price * ((1000 : Nat) : ℚ) *
      (((((3 : Nat) : Int) - screenPrintDeco.decorationUnitsIncluded) : Int) : ℚ) ∧
    runLineThousand.description =
      toString (((3 : Nat) : Int) - screenPrintDeco.decorationUnitsIncluded)
        ++ " extra color(s)" := by
  have h : runChargeLine 1000 3 screenPrintDeco.decorationUnitsIncluded colorRunCharge =
      some runLineThousand := by
    simp +decide [runChargeLine, colorRunCharge, colorRunPrice, screenPrintDeco,
      runLineThousand]
    all_goals norm_num
  exact (colorKeyedRunChargeBillsExtraColors 1000 3 screenPrintDeco colorRunCharge
    colorRunPrice rfl rfl).1 runLineThousand h

/-! ### C4 -/

/-- C4: every charge line derived from a `Setup`-type charge of the chosen
decoration is a one-time line — `quantity = 1`, extended price equal to the
unit price, the unit price taken from the first price-matrix entry of one of
the `Setup` charges of the decoration — and the charge-line list
decomposes as setup lines followed by run lines, where the setup lines do not
depend on the order quantity or the imprint-color count. -/
theorem setupChargesAreOneTimeFlat (d : Decoration) (c : LineItemCharge)
    (hc : c ∈ setupChargeLines d) :
    (c.quantity = 1 ∧ c.extendedPrice = c.unitPrice ∧
      ∃ ch, ch ∈ d.charges ∧ ch.chargeType = "Setup" ∧
        ∃ cp, ch.priceArray.head? = some cp ∧ c.unitPrice = cp.price) ∧
    ∀ (qty colors : Nat),
      decorationChargeLines qty colors d =
        setupChargeLines d ++ runChargeLines qty colors d := by
  refine ⟨?_, fun _ _ => rfl⟩
  simp only [setupChargeLines, List.mem_filterMap, List.mem_filter] at hc
  obtain ⟨ch, ⟨hmem, htype⟩, hline⟩ := hc
  simp only [setupChargeLine] at hline
  split at hline
  · exact Option.noConfusion hline
  · next cp hhead =>
    injection hline with h
    subst h
    exact ⟨rfl, rfl, ch, hmem, by simpa using htype, cp, hhead, rfl⟩

/-- C4, witnessed on the setup charge line of `screenPrintDeco`. -/
theorem setupChargeWitness :
    setupLine.quantity = 1 ∧ setupLine.extendedPrice = setupLine.unitPrice := by
  have hmem : setupLine ∈ setupChargeLines screenPrintDeco := by
    simp +decide [setupChargeLines, setupChargeLine, screenPrintDeco, setupChargeEx,
      colorRunCharge, setupLine]
  have h := setupChargesAreOneTimeFlat screenPrintDeco setupLine hmem
  exact ⟨h.1.1, h.1.2.1⟩

/-! ### C6 -/

/-- The inner fold of `getMaxDecorationColors` leaves the accumulator
unchanged when every decoration has `unitsMax` 1 and the accumulator is
already at least 1. -/
theorem foldlUnitsMaxOne (l : List Decoration) (a : Nat)
    (h : ∀ d ∈ l, d.decorationUnitsMax = 1) (ha : 1 ≤ a) :
    l.foldl (fun x d => if d.decorationUnitsMax > x then d.decorationUnitsMax else x) a = a := by
  induction l generalizing a with
  | nil => rfl
  | cons d t ih =>
    have hd : d.decorationUnitsMax = 1 := h d (List.mem_cons_self d t)
    have hstep : (if d.decorationUnitsMax > a then d.decorationUnitsMax else a) = a := by
      rw [hd, if_neg (by omega)]
    simp only [List.foldl_cons, hstep]
    exact ih a (fun x hx => h x (List.mem_cons_of_mem d hx)) ha

/-- When every decoration of the snapshot has `unitsMax = 1`, the
catalog-wide maximum imprint-color count is 1. -/
theorem maxDecorationColorsOne (pd : PricingConfiguration)
    (hmax : ∀ loc ∈ pd.locations, ∀ d ∈ loc.decorations, d.decorationUnitsMax = 1) :
    getMaxDecorationColors pd = 1 := by
  unfold getMaxDecorationColors
  have key : ∀ (ls : List Location),
      (∀ loc ∈ ls, ∀ d ∈ loc.decorations, d.decorationUnitsMax = 1) →
      ls.foldl (fun acc location => location.decorations.foldl
        (fun a d => if d.decorationUnitsMax > a then d.decorationUnitsMax else a) acc) 1 = 1 := by
    intro ls
    induction ls with
    | nil => intro _; rfl
    | cons loc t ih =>
      intro h
      simp only [List.foldl_cons]
      rw [foldlUnitsMaxOne loc.decorations 1 (h loc (List.mem_cons_self loc t)) (le_refl 1)]
      exact ih (fun x hx => h x (List.mem_cons_of_mem loc hx))
  exact key pd.locations hmax

/-- The color auto-selection step never touches `decorationColors`. -/
theorem autoSelectPartColors (sel : FieldValues) (pd : PricingConfiguration) :
    (autoSelectPart sel pd).decorationColors = sel.decorationColors := by
  simp only [autoSelectPart]
  split
  · split <;> rfl
  · rfl

/-- The method auto-selection step never touches `decorationColors`. -/
theorem autoSelectMethodColors (sel : FieldValues) (pd : PricingConfiguration) :
    (autoSelectMethod sel pd).decorationColors = sel.decorationColors := by
  simp only [autoSelectMethod]
  split
  · split <;> rfl
  · rfl

/-- The location auto-selection step never touches `decorationColors`. -/
theorem autoSelectLocationColors (sel : FieldValues) (pd : PricingConfiguration) :
    (autoSelectLocation sel pd).decorationColors = sel.decorationColors := by
  simp only [autoSelectLocation]
  split
  · split <;> rfl
  · rfl

/-- C6: when every decoration method of the snapshot has `unitsMax = 1` and
`decorationColors` is still unset, the planner auto-resolves
`decorationColors = 1` and `getRequiredFields` no longer lists imprint colors
as missing, so no question is generated for it. -/
theorem singleColorMethodsAutoResolve (sel : FieldValues) (pd : PricingConfiguration)
    (hmax : ∀ loc ∈ pd.locations, ∀ d ∈ loc.decorations, d.decorationUnitsMax = 1)
    (hunset : sel.decorationColors = none) :
    (autoSelectSingleOptions sel pd).decorationColors = some 1 ∧
    (getRequiredFields (autoSelectSingleOptions sel pd)).decorationColors = false := by
  have hpre : (autoSelectLocation (autoSelectMethod (autoSelectPart sel pd) pd) pd).decorationColors
      = none := by
    rw [autoSelectLocationColors, autoSelectMethodColors, autoSelectPartColors, hunset]
  have hres : (autoSelectSingleOptions sel pd).decorationColors = some 1 := by
    unfold autoSelectSingleOptions autoSelectColors
    rw [maxDecorationColorsOne pd hmax, hpre]
    simp [jsNatFalsy]
  exact ⟨hres, by simp [getRequiredFields, hres]⟩

/-- A snapshot whose single decoration is single-color. -/
def engraveDeco : Decoration :=
  { decorationName := "Laser Engrave"
    decorationUnitsMax := 1
    charges := [] }

/-- A one-location catalog offering only the single-color decoration. -/
def pdSingleColor : PricingConfiguration :=
  { productId := "1"
    parts := [{ partId := "P1", partDescription := "BLACK", priceBreaks := [] }]
    locations := [{ locationName := "WRAP", decorations := [engraveDeco] }] }

/-- C6, witnessed on `pdSingleColor` with an empty field bag. -/
theorem singleColorAutoResolveWitness :
    (autoSelectSingleOptions {} pdSingleColor).decorationColors = some 1 ∧
    (getRequiredFields (autoSelectSingleOptions {} pdSingleColor)).decorationColors = false :=
  singleColorMethodsAutoResolve {} pdSingleColor (by decide) rfl

/-! ### C7 -/

/-- The parsed request of scenario B: only the quantity is known. -/
def reqScenB : FieldValues := { quantity := some 500 }

/-- The product of scenario B: three single-color parts. -/
def productScenB : Product :=
  { productName := "Tumbler"
    parts := [{ partId := "P1", colors := ["BLACK"] },
              { partId := "P2", colors := ["BLUE"] },
              { partId := "P3", colors := ["RED"] }] }

/-- The single location of scenario B, offering two decoration methods. -/
def locationScenB : PricingLocation :=
  { locationName := "WRAP"
    decorationMethods := [{ decorationName := "Screen Print" },
                          { decorationName := "Laser Engrave" }] }

/-- The pricing payload of scenario B: one location, two decoration methods. -/
def pricingScenB : ProductPricing :=
  { decorationLocations := [locationScenB] }

/-- C7 counterexample: in scenario B (quantity known; color, method and
imprint colors missing against 3 colors and 2 methods) the generator returns
a single question — the color question — not the claimed batch of three. -/
theorem scenarioBReturnsOneQuestion :
    (generateClarifyingQuestions reqScenB {} productScenB pricingScenB).map
      ClarifyingQuestion.field = ["color"] ∧
    (generateClarifyingQuestions reqScenB {} productScenB pricingScenB).length = 1 := by
  constructor <;> decide

/-- C7 amended: the generator assembles candidate questions in the priority
order quantity, color, decoration method, imprint colors (the imprint-color
question only once a method is known), but returns `questions.slice(0, 1)` —
at most one question per batch; in particular, when quantity is known, color
is unknown and more than one color is offered, the batch is exactly the color
question. -/
theorem questionBatchCappedAtOne :
    (∀ (req sel : FieldValues) (product : Product) (pricing : ProductPricing),
      (generateClarifyingQuestions req sel product pricing).length ≤ 1) ∧
    (∀ (req sel : FieldValues) (product : Product) (pricing : ProductPricing),
      jsNatFalsy (jsOrNat req.quantity sel.quantity) = false →
      jsStrFalsy (jsOrStr req.color sel.color) = true →
      1 < (availableColorsOf product).length →
      generateClarifyingQuestions req sel product pricing =
        [colorQuestion (availableColorsOf product)]) := by
  constructor
  · intro req sel product pricing
    simp only [generateClarifyingQuestions, List.length_take]
    omega
  · intro req sel product pricing hq hc hlen
    simp only [generateClarifyingQuestions, hq, hc, hlen]
    simp

/-- C7 amended, witnessed on scenario B. -/
theorem questionBatchWitness :
    generateClarifyingQuestions reqScenB {} productScenB pricingScenB =
      [colorQuestion (availableColorsOf productScenB)] :=
  questionBatchCappedAtOne.2 reqScenB {} productScenB pricingScenB (by decide) rfl (by decide)

/-! ### C8 -/

/-- The color step never touches the decoration method. -/
theorem mergeOracleColorMethod (r ai : OracleFields) (colors : List ColorOption) :
    (mergeOracleColor r ai colors).decorationMethod = r.decorationMethod := by
  simp only [mergeOracleColor]
  split
  · split
    · split <;> rfl
    · rfl
  · rfl

/-- When the oracle color fails to match a catalog option, the color step
leaves the color unchanged. -/
theorem mergeOracleColorUnmatched (r ai : OracleFields) (colors : List ColorOption)
    (w : String) (hw : ai.color = some w)
    (hm : findSynonymMatch w (colorOptionNames colors) = none) :
    (mergeOracleColor r ai colors).color = r.color := by
  simp only [mergeOracleColor, hw, Option.getD_some, hm]
  split <;> rfl

/-- The part-id step never touches color or decoration method. -/
theorem mergeOraclePartIdFrame (r ai : OracleFields) :
    (mergeOraclePartId r ai).color = r.color ∧
    (mergeOraclePartId r ai).decorationMethod = r.decorationMethod := by
  simp only [mergeOraclePartId]
  split <;> exact ⟨rfl, rfl⟩

/-- The method step never touches the color. -/
theorem mergeOracleMethodColor (r ai : OracleFields) (methodOptions : List String) :
    (mergeOracleMethod r ai methodOptions).color = r.color := by
  simp only [mergeOracleMethod]
  split <;> rfl

/-- The location step never touches color or decoration method. -/
theorem mergeOracleLocationFrame (r ai : OracleFields) (locationOptions : List String) :
    (mergeOracleLocation r ai locationOptions).color = r.color ∧
    (mergeOracleLocation r ai locationOptions).decorationMethod = r.decorationMethod := by
  simp only [mergeOracleLocation]
  split <;> exact ⟨rfl, rfl⟩

/-- The color-count step never touches color or decoration method. -/
theorem mergeOracleColorCountFrame (r ai : OracleFields) :
    (mergeOracleColorCount r ai).color = r.color ∧
    (mergeOracleColorCount r ai).decorationMethod = r.decorationMethod := by
  simp only [mergeOracleColorCount]
  split <;> exact ⟨rfl, rfl⟩

/-- C8 amended: an oracle-proposed decoration method that matches no catalog
option under `findSynonymMatch` is NOT discarded — the merge keeps the raw
oracle value verbatim (`matchedMethod || aiParsed.decorationMethod`), even
when catalog method options are present; only the color field discards an
unmatched oracle value. -/
theorem unmatchedOracleValuesMergeBehaviour (directMatch aiParsed : OracleFields)
    (colors : List ColorOption) (methodOptions locationOptions : List String) :
    (∀ v, aiParsed.decorationMethod = some v → v ≠ "" →
      directMatch.decorationMethod = none →
      findSynonymMatch v methodOptions = none →
      (mergeOracleResponse directMatch aiParsed colors methodOptions
        locationOptions).decorationMethod = some v) ∧
    (∀ w, aiParsed.color = some w →
      findSynonymMatch w (colorOptionNames colors) = none →
      (mergeOracleResponse directMatch aiParsed colors methodOptions
        locationOptions).color = directMatch.color) := by
  constructor
  · intro v hv hne hdm hm
    have hr2 : (mergeOraclePartId (mergeOracleColor directMatch aiParsed colors)
        aiParsed).decorationMethod = none := by
      rw [(mergeOraclePartIdFrame _ _).2, mergeOracleColorMethod, hdm]
    unfold mergeOracleResponse
    rw [(mergeOracleColorCountFrame _ _).2, (mergeOracleLocationFrame _ _ _).2]
    simp only [mergeOracleMethod, hr2, hv, Option.getD_some, hm]
    simp [jsStrFalsy, jsOrStr, hne]
  · intro w hw hm
    unfold mergeOracleResponse
    rw [(mergeOracleColorCountFrame _ _).1, (mergeOracleLocationFrame _ _ _).1,
      mergeOracleMethodColor, (mergeOraclePartIdFrame _ _).1,
      mergeOracleColorUnmatched directMatch aiParsed colors w hw hm]

/-- The oracle proposing a method that matches nothing in the catalog. -/
def oracleGlitter : OracleFields := { decorationMethod := some ("glitter bomb") }

/-- C8 counterexample: with catalog method options present
(`["Screen Print"]`) and an oracle-proposed method (`"glitter bomb"`) that
matches no option, the merged result still carries the raw oracle value —
the claim says it must be discarded. -/
theorem unmatchedOracleMethodKeptVerbatim :
    (mergeOracleResponse {} oracleGlitter [] ["Screen Print"] []).decorationMethod =
      some ("glitter bomb") ∧
    findSynonymMatch ("glitter bomb") ["Screen Print"] = none ∧
    (["Screen Print"] : List String) ≠ [] := by
  refine ⟨by decide, by decide, by decide⟩

/-- C8 amended, witnessed on the `"glitter bomb"` input. -/
theorem unmatchedOracleMergeWitness :
    (mergeOracleResponse {} oracleGlitter [] ["Screen Print"] []).decorationMethod =
      some ("glitter bomb") :=
  (unmatchedOracleValuesMergeBehaviour {} oracleGlitter [] ["Screen Print"] []).1
    ("glitter bomb") rfl (by decide) rfl (by decide)

/-! ### C9 -/

/-- C9: the per-turn merge loop leaves a state key unchanged whenever the
extraction carries no set value for it — both when the extraction lists the
key with a `null`/`undefined` value and when it does not mention the key at
all, a previously set field keeps its prior value. -/
theorem unsetExtractionPreservesState {α : Type} (sel : String → Option α)
    (extracted : List (String × Option α)) (k : String)
    (h : ∀ v : α, (k, some v) ∉ extracted) :
    mergeExtracted sel extracted k = sel k := by
  induction extracted generalizing sel with
  | nil => rfl
  | cons e rest ih =>
    have hrest : ∀ v : α, (k, some v) ∉ rest :=
      fun v hv => h v (List.mem_cons_of_mem e hv)
    have hstep : applyEntry sel e k = sel k := by
      obtain ⟨q, v⟩ := e
      cases v with
      | none => rfl
      | some w =>
        have hk : ¬(k == q) = true := by
          intro hbeq
          rw [beq_iff_eq] at hbeq
          subst hbeq
          exact h w (List.mem_cons_self _ _)
        simp [applyEntry, hk]
    have hfold : mergeExtracted sel (e :: rest) k = mergeExtracted (applyEntry sel e) rest k :=
      rfl
    rw [hfold, ih (applyEntry sel e) hrest, hstep]

/-- The prior state of the witness turn: only the quantity is set. -/
def selTurn : String → Option Nat := fun q => if q == "quantity" then some 500 else none

/-- A witness extraction that lists two fields, both unset. -/
def extractedTurn : List (String × Option Nat) :=
  [("decorationColors", none), ("color", none)]

/-- C9, witnessed: merging an extraction whose values are all unset leaves
the previously set quantity untouched. -/
theorem unsetExtractionWitness :
    mergeExtracted selTurn extractedTurn ("quantity") = selTurn ("quantity") :=
  unsetExtractionPreservesState selTurn extractedTurn ("quantity")
    (by intro v hv; simp [extractedTurn] at hv)

/-! ### C10 -/

/-- A successful `findSome?` result comes from some list member. -/
theorem exists_of_findSomeEq {α β : Type} (f : α → Option β) :
    ∀ (l : List α) (b : β), l.findSome? f = some b → ∃ a ∈ l, f a = some b := by
  intro l
  induction l with
  | nil => intro b h; exact Option.noConfusion h
  | cons a t ih =>
    intro b h
    rw [List.findSome?_cons] at h
    cases hfa : f a with
    | some c =>
      rw [hfa] at h
      injection h with h
      subst h
      exact ⟨a, List.mem_cons_self a t, hfa⟩
    | none =>
      rw [hfa] at h
      obtain ⟨x, hx, hfx⟩ := ih b h
      exact ⟨x, List.mem_cons_of_mem a hx, hfx⟩

/-- C10: whatever `findSynonymMatch` returns is either nothing or literally
one of the supplied options — both the direct pass and the synonym pass
select via `availableOptions.find`, so no value outside the legal option
set of the catalog can be fabricated. -/
theorem matcherReturnsCatalogOption (input : String) (availableOptions : List String)
    (x : String) (h : findSynonymMatch input availableOptions = some x) :
    x ∈ availableOptions := by
  simp only [findSynonymMatch] at h
  split at h
  · next m hfind =>
    injection h with h
    subst h
    exact List.mem_of_find?_eq_some hfind
  · next hfind =>
    obtain ⟨entry, _, hentry⟩ := exists_of_findSomeEq _ synonyms x h
    split at hentry
    · exact List.mem_of_find?_eq_some hentry
    · exact Option.noConfusion hentry

/-- C10, witnessed: `"silk screen"` resolves through the synonym table to the
catalog option `"Screen Print"`, which is in the supplied option list. -/
theorem matcherReturnsCatalogOptionWitness :
    findSynonymMatch ("silk screen") ["Screen Print"] = some ("Screen Print") ∧
    ("Screen Print") ∈ ["Screen Print"] :=
  ⟨by decide, matcherReturnsCatalogOption ("silk screen") ["Screen Print"] ("Screen Print")
    (by decide)⟩

end OrderEntry
